import Mathlib

/-!
Verification of the `smart_colleague` repository.

Shallow embedding of the two source files that the specification's
testable properties talk about:

* `src/dom_parser.js` — the DOM snapshot tool: `elementToTree`,
  `parseDOM`, `countInteractiveElements`, `analyzeDOM` and the CLI
  entry point;
* the `AIAssistantWidget` class — widget state, `addChatMessage`,
  `sendChatMessage` and the other state-mutating handlers, modelled as
  a step function over an explicit state record.

Machine integers play no role here (all counts are small naturals),
strings are modelled as Lean `String`/`List Char`.
-/

/- ================= DOM snapshot tool (src/dom_parser.js) ============== -/

/-- A DOM node as seen by `elementToTree`: either a text node or an
element with a tag name, an attribute list and a list of child nodes
(`element.children` in the source is the sublist of element children;
`element.textContent` is the concatenation of all descendant text). -/
inductive DomNode where
  | text : String → DomNode
  | elem : String → List (String × String) → List DomNode → DomNode

/-- The value of `element.textContent`: concatenation of all descendant text nodes. -/
def textContentOf : DomNode → String
  | .text s => s
  | .elem _ _ cs => textContentList cs
where
  /-- Text content of a list of sibling nodes, in order. -/
  textContentList : List DomNode → String
    | [] => ""
    | c :: cs => textContentOf c ++ textContentList cs

/-- JS whitespace class `\s` restricted to the characters that occur in
HTML text: space, tab, newline, carriage return, vertical tab, form feed. -/
def isWs (c : Char) : Bool :=
  c = ' ' || c = '\t' || c = '\n' || c = '\r' || c = '\x0b' || c = '\x0c'

/-- JS `String.prototype.trim`: drop whitespace from both ends (char-list level). -/
def trimChars (l : List Char) : List Char :=
  ((l.dropWhile isWs).reverse.dropWhile isWs).reverse

/-- JS `.replace(/\s+/g, ' ')`: each maximal whitespace run becomes one space.
The boolean flag records whether the previous character was part of a
whitespace run already replaced. -/
def collapseAux : Bool → List Char → List Char
  | _, [] => []
  | prevWs, c :: cs =>
    if isWs c then
      if prevWs then collapseAux true cs else ' ' :: collapseAux true cs
    else c :: collapseAux false cs

def collapseWs (l : List Char) : List Char := collapseAux false l

/-- The expression `textContent.trim().replace(/\s+/g, ' ').substring(0, 200)`
from line 27 of `dom_parser.js`. -/
def jsNormalize (s : String) : String :=
  String.mk (List.take 200 (collapseWs (trimChars s.toList)))

/-- JS `String.prototype.trim` on strings. -/
def jsTrim (s : String) : String := String.mk (trimChars s.toList)

/-- ASCII `toLowerCase` on one character (tag names are ASCII). -/
def lowerChar (c : Char) : Char :=
  if 'A' ≤ c ∧ c ≤ 'Z' then Char.ofNat (c.toNat + 32) else c

/-- `String.prototype.toLowerCase` on ASCII tag names. -/
def lowerStr (s : String) : String := String.mk (s.toList.map lowerChar)

/-- The expression `element.tagName ? element.tagName.toLowerCase() : ''` (line 31). -/
def jsTagLower (t : String) : String := if t = "" then "" else lowerStr t

/-- The expression `element.tagName ? element.tagName.toLowerCase() : '...'` (line 19),
used for the depth-limit sentinel. -/
def sentinelTag (t : String) : String := if t = "" then "..." else lowerStr t

/-- The object produced by `elementToTree`: either the depth-limit
sentinel `{tagName, depthLimit: true}` (which has NO `children`,
`textContent` or `elementCount` fields) or a full
`{tagName, attributes, children, textContent, elementCount}` record. -/
inductive NodeInfo where
  | limit : String → NodeInfo
  | info : String → List (String × String) → List NodeInfo → String → Nat → NodeInfo

/-- The expression `childTree.elementCount || 0` (line 50): the sentinel has no
`elementCount` field, so it contributes `0`. -/
def ecOf : NodeInfo → Nat
  | .limit _ => 0
  | .info _ _ _ _ n => n

/-- Accumulated `elementInfo.elementCount`: the loop on lines 47-51 adds
`1 + (childTree.elementCount || 0)` for each element child. -/
def sumEc : List NodeInfo → Nat
  | [] => 0
  | c :: cs => (1 + ecOf c) + sumEc cs

/-- The `children` field, when present. -/
def childrenOf : NodeInfo → Option (List NodeInfo)
  | .limit _ => none
  | .info _ _ cs _ _ => some cs

/-- The `textContent` field, when present. -/
def textContentField : NodeInfo → Option String
  | .limit _ => none
  | .info _ _ _ tc _ => some tc

mutual

/-- The function `elementToTree(element, depth)` (lines 15-55 of `dom_parser.js`).
Only ever applied to element nodes (the recursion walks
`element.children` and the top-level call is on
`document.documentElement`); the `text` case is unreachable and maps to
a sentinel for totality. -/
def elementToTree : DomNode → Nat → NodeInfo
  | .text _, _ => .limit "..."
  | .elem t a cs, depth =>
    if depth > 10 then
      .limit (sentinelTag t)
    else
      let tc := if textContentOf.textContentList cs = "" then ""
                else jsNormalize (textContentOf.textContentList cs)
      let kids := elemChildren cs (depth + 1)
      .info (jsTagLower t) a kids tc (sumEc kids)

/-- The loop over `element.children` (element children only, in document
order), each processed at `depth + 1`. -/
def elemChildren : List DomNode → Nat → List NodeInfo
  | [], _ => []
  | .text _ :: cs, d => elemChildren cs d
  | .elem t a cc :: cs, d => elementToTree (.elem t a cc) d :: elemChildren cs d

end


/- ---- Reference quantities defined directly on the DOM tree ---- -/

mutual

/-- Contribution of one child node to the descendant-element count of
its parent: a text node counts for nothing, an element counts itself
plus its own descendant elements. -/
def elemDescNode : DomNode → Nat
  | .text _ => 0
  | .elem _ _ cs => 1 + elemDescList cs

/-- Total number of descendant elements of a forest of sibling nodes. -/
def elemDescList : List DomNode → Nat
  | [] => 0
  | c :: cs => elemDescNode c + elemDescList cs

end

/-- Number of descendant elements strictly below an element (the element
itself excluded). -/
def elemDesc : DomNode → Nat
  | .text _ => 0
  | .elem _ _ cs => elemDescList cs

mutual

/-- Depth (relative to a node's parent) of the deepest element in the
subtree rooted at that node: `0` for a text node, `1 + ` the deepest
element below for an element node. -/
def heightNode : DomNode → Nat
  | .text _ => 0
  | .elem _ _ cs => 1 + heightEList cs

/-- Depth of the deepest element of a forest of children, relative to
the parent: an element at depth `j ≥ 1` below the parent exists iff
`j ≤ heightEList` of the parent's child list. -/
def heightEList : List DomNode → Nat
  | [] => 0
  | c :: cs => max (heightNode c) (heightEList cs)

end

/-- Height of the element tree below an element: `0` when it has no
element children. -/
def heightE : DomNode → Nat
  | .text _ => 0
  | .elem _ _ cs => heightEList cs

mutual

/-- Size measure used for strong induction over the nested tree. -/
def nodeSize : DomNode → Nat
  | .text _ => 1
  | .elem _ _ cs => 1 + sizeList cs

def sizeList : List DomNode → Nat
  | [] => 0
  | c :: cs => nodeSize c + sizeList cs

end

/-- The array `interactiveTags` of line 108:
`['button', 'a', 'input', 'select', 'textarea', 'form']`. -/
def interactiveTags : List String := ["button", "a", "input", "select", "textarea", "form"]

mutual

/-- Number of elements of a DOM subtree (the element itself included)
whose lower-cased tag name is an interactive tag — the quantity the spec
says `countInteractiveElements` computes. -/
def domInteractive : DomNode → Nat
  | .text _ => 0
  | .elem t _ cs => (if jsTagLower t ∈ interactiveTags then 1 else 0) + domInteractiveList cs

def domInteractiveList : List DomNode → Nat
  | [] => 0
  | c :: cs => domInteractive c + domInteractiveList cs

end

mutual

/-- The function `countInteractiveElements(node)` (lines 106-119). The tag test on
line 110 never throws (a sentinel still has `tagName`), but the
`for (let child of node.children)` loop on line 114 throws a `TypeError`
when `node` is a depth-limit sentinel (or the `{error}` object), since
those carry no `children` field; a throw is modelled as `none`. -/
def countInteractive : NodeInfo → Option Nat
  | .limit _ => none
  | .info tag _ cs _ _ =>
    match countInteractiveList cs with
    | none => none
    | some n => some ((if tag ∈ interactiveTags then 1 else 0) + n)

def countInteractiveList : List NodeInfo → Option Nat
  | [] => some 0
  | c :: cs =>
    match countInteractive c, countInteractiveList cs with
    | some a, some b => some (a + b)
    | _, _ => none

end

/- ---- parseDOM, analyzeDOM and the CLI entry point ---- -/

/-- What `parseDOM` returns: the snapshot tree, or the `{error: message}`
object from its own `catch` (line 59) when reading/parsing the file
throws. -/
inductive ParseResult where
  | errorObj : String → ParseResult
  | tree : NodeInfo → ParseResult

/-- The function `parseDOM(htmlPath)` (lines 8-61). The filesystem read and the JSDOM
parse are modelled by the input: `some root` is the successfully parsed
document's `documentElement`, `none` a read/parse failure caught on
line 58. -/
def parseDOM : Option DomNode → ParseResult
  | none => .errorObj "read failure"
  | some root => .tree (elementToTree root 0)

/-- The expression `domTree.elementCount || 0` (line 80): the `{error}` object has no
`elementCount` field. -/
def ecOfResult : ParseResult → Nat
  | .errorObj _ => 0
  | .tree t => ecOf t

/-- The call `countInteractiveElements(domTree)` (line 81) applied to whatever
`parseDOM` returned: on the `{error}` object, `node.children` is
`undefined` and the `for..of` throws (`none`). -/
def countInteractiveResult : ParseResult → Option Nat
  | .errorObj _ => none
  | .tree t => countInteractive t

/-- Message of the `TypeError` raised by iterating a missing `children`
field. -/
def childrenIterMsg : String := "node.children is not iterable"

/-- One entry of `results`: the per-file analysis object (lines 76-83)
or the `{file, error}` record pushed by the per-file `catch`
(lines 91-96). -/
inductive FileRecord where
  | analysis : String → Nat → Nat → FileRecord
  | error : String → String → FileRecord

/-- The body of the `forEach` in `analyzeDOM` for one file: the
`analysis` object is only pushed if computing its `stats` did not throw;
a throw lands in the `catch` and pushes `{file, error}` instead. -/
def processFile (file : String) (content : Option DomNode) : FileRecord :=
  match countInteractiveResult (parseDOM content) with
  | none => .error file childrenIterMsg
  | some k => .analysis file (ecOfResult (parseDOM content)) k

/-- The report object returned by `analyzeDOM` (lines 99-103); the
summary totals accumulate only over successfully analyzed files. -/
structure Report where
  totalPages : Nat
  summaryTotalElements : Nat
  summaryInteractiveElements : Nat
  results : List FileRecord

def sumStat (f : FileRecord → Nat) : List FileRecord → Nat
  | [] => 0
  | r :: rs => f r + sumStat f rs

def totalOf : FileRecord → Nat
  | .analysis _ te _ => te
  | .error _ _ => 0

def interOf : FileRecord → Nat
  | .analysis _ _ ie => ie
  | .error _ _ => 0

/-- The function `analyzeDOM(htmlFiles)` (lines 64-104): each input file is processed
independently; a per-file failure is recorded and the loop continues. -/
def analyzeDOM (files : List (String × Option DomNode)) : Report :=
  let rs := files.map (fun fc => processFile fc.1 fc.2)
  { totalPages := files.length
    summaryTotalElements := sumStat totalOf rs
    summaryInteractiveElements := sumStat interOf rs
    results := rs }

/-- Outcome of the whole CLI run (lines 122-144): `fatal 1` models the
`catch` that prints a JSON error line to stderr and calls
`process.exit(1)`; `success` models writing `dom_analysis.json` and
printing the JSON status line. -/
inductive RunOutcome where
  | fatal : Nat → RunOutcome
  | success : Report → RunOutcome

/-- The top-level `try`/`catch`: `none` models a temp file that cannot
be read or is not valid JSON (the `JSON.parse(fs.readFileSync(...))` on
line 124 throwing). -/
def runMain : Option (List (String × Option DomNode)) → RunOutcome
  | none => .fatal 1
  | some files => .success (analyzeDOM files)

/- ---- Concrete witness documents ---- -/

/-- A chain of nested `<div>` elements: `chainDiv n` has `n` descendant
elements below it, the deepest at depth `n`. -/
def chainDiv : Nat → DomNode
  | 0 => .elem "DIV" [] []
  | n + 1 => .elem "DIV" [] [chainDiv n]

/-- Same shape with anchors, which are interactive. -/
def chainA : Nat → DomNode
  | 0 => .elem "A" [] []
  | n + 1 => .elem "A" [] [chainA n]


/- ================= AIAssistantWidget ================================= -/

/-- The `instruction_data` attached to an assistant message: an ordered list
of steps and an identifier used for export. -/
structure InstructionData where
  steps : List String
  instruction_id : String
deriving DecidableEq

/-- One chat message as built by `addChatMessage` (lines 1063-1069):
`id` is `Date.now() + Math.random()` and `timestamp` the formatted clock
reading, both supplied by the environment. -/
structure ChatMessage where
  id : Nat
  role : String
  content : String
  timestamp : String
  instructionData : Option InstructionData
deriving DecidableEq

/-- An available task from the backend (`id`, `name`, `description`). -/
structure TaskItem where
  taskId : String
  name : String
  description : String
deriving DecidableEq

/-- The record `this.state` (lines 15-25) plus `popularInstructions`, which the
constructor does not initialise and `loadPopularInstructions` adds
dynamically (line 966); modelled as a field starting empty. -/
structure WidgetState where
  isVisible : Bool
  availableTasks : List TaskItem
  isListening : Bool
  chatMessages : List ChatMessage
  currentChatMessage : String
  activeTab : String
  isWaitingForResponse : Bool
  isMinimized : Bool
  hasUnreadMessages : Bool
  popularInstructions : List String
deriving DecidableEq

/-- The state object literal of the constructor. -/
def initialWidgetState : WidgetState :=
  { isVisible := false
    availableTasks := []
    isListening := false
    chatMessages := []
    currentChatMessage := ""
    activeTab := "tasks"
    isWaitingForResponse := false
    isMinimized := false
    hasUnreadMessages := false
    popularInstructions := [] }

/-- The method `addChatMessage(role, content, instructionData)` (lines 1062-1083):
pushes the new message and, when the panel is hidden and the message
comes from the assistant, raises the unread flag. Rendering and
scrolling touch only the DOM. -/
def addChatMessage (s : WidgetState) (role content : String)
    (instructionData : Option InstructionData) (id : Nat) (ts : String) : WidgetState :=
  let s1 := { s with chatMessages :=
    s.chatMessages ++ [{ id := id, role := role, content := content,
                         timestamp := ts, instructionData := instructionData }] }
  if !s1.isVisible && role == "assistant" then
    { s1 with hasUnreadMessages := true }
  else s1

/-- The HTTP requests the widget can issue (§6 of the spec); payloads
such as the page context are environment data and omitted. -/
inductive HttpRequest where
  | getHelp
  | popularInstructions
  | searchInstructions : String → HttpRequest
  | chat : String → HttpRequest
  | getInstruction : String → HttpRequest
  | processVoice : String → HttpRequest
  | exportReq : String → String → HttpRequest
deriving DecidableEq

/-- The `/api/chat` response as consumed on lines 1190-1197. -/
inductive ChatReply where
  | ok : String → String → Option InstructionData → ChatReply
  | failure
deriving DecidableEq

/-- Generic apology appended by the `catch` of `sendChatMessage`
(line 1202). -/
def chatApology : String := "Извините, произошла ошибка. Попробуйте еще раз."

/-- Apology appended by the `catch` of `showInstruction` (line 1267). -/
def instrApology : String := "Извините, не удалось получить инструкцию."

/-- Apology appended by the `catch` of `processVoiceQuery` (line 1337). -/
def voiceApology : String := "Извините, произошла ошибка при обработке голосового запроса."

/-- The `welcomeMessages` array (lines 940-945). -/
def welcomeMessages : List String :=
  ["Привет! Я ваш AI-ассистент. Чем могу помочь?",
   "Здравствуйте! Готов помочь с задачами на этой странице.",
   "Приветствую! Задавайте вопросы или ищите инструкции.",
   "Добрый день! Я здесь, чтобы помочь вам разобраться с интерфейсом."]

/-- The synchronous prefix of `sendChatMessage` (lines 1162-1188): trim
the current input; bail out when it is empty or a request is pending;
otherwise append the user message, clear the input, set the in-flight
flag and issue the `/api/chat` request. -/
def sendChatStart (s : WidgetState) (id : Nat) (ts : String) :
    WidgetState × List HttpRequest :=
  let message := jsTrim s.currentChatMessage
  if message = "" ∨ s.isWaitingForResponse then (s, [])
  else
    let s1 := addChatMessage s "user" message none id ts
    let s2 := { s1 with currentChatMessage := "", isWaitingForResponse := true }
    (s2, [.chat message])

/-- The continuation of `sendChatMessage` once the awaited request
settles (lines 1190-1206): append the reply (with `instruction_data`
exactly when `data.type === 'instruction'`) or the apology on failure;
the `finally` clears the in-flight flag in both cases. -/
def sendChatComplete (s : WidgetState) (r : ChatReply) (id : Nat) (ts : String) :
    WidgetState :=
  let s1 := match r with
    | .ok type msg instr =>
      if type = "instruction" then addChatMessage s "assistant" msg instr id ts
      else addChatMessage s "assistant" msg none id ts
    | .failure => addChatMessage s "assistant" chatApology none id ts
  { s1 with isWaitingForResponse := false }

/-- One synchronous segment of widget execution (a handler run up to an
`await`, or the continuation after one). Each constructor carries the
environment data the segment consumes: fresh message ids/timestamps and
backend response payloads. -/
inductive WidgetOp where
  | inputChanged : String → WidgetOp
  | sendStart : Nat → String → WidgetOp
  | sendComplete : ChatReply → Nat → String → WidgetOp
  | welcome : Nat → Nat → String → WidgetOp
  | initStart : WidgetOp
  | initOk : List TaskItem → WidgetOp
  | initFail : WidgetOp
  | popularStart : WidgetOp
  | popularOk : List String → WidgetOp
  | popularFail : WidgetOp
  | searchStart : String → WidgetOp
  | searchOk : WidgetOp
  | searchFail : WidgetOp
  | instrStart : String → String → WidgetOp
  | instrOk : String → Option (List String) → String → Nat → String → WidgetOp
  | instrFail : Nat → String → WidgetOp
  | loadInstr : Option (List String) → String → Nat → String → WidgetOp
  | voiceStart : Option String → WidgetOp
  | voiceOk : String → String → String → List String → String → Nat → String → Nat → String → WidgetOp
  | voiceFail : Nat → String → WidgetOp
  | exportStart : String → Option String → WidgetOp
  | exportOk : WidgetOp
  | exportFail : WidgetOp
  | togglePanel : WidgetOp
  | showPanel : WidgetOp
  | hidePanel : WidgetOp
  | toggleMinimize : WidgetOp
  | switchTab : String → WidgetOp
  | sendMessagePub : String → Nat → String → WidgetOp

/-- The state transition of each segment, paired with the list of HTTP
requests it issues. Every handler body is wrapped in `try`/`catch` in
the source, so the transition is a total function: no segment throws to
its caller. -/
def step (s : WidgetState) : WidgetOp → WidgetState × List HttpRequest
  | .inputChanged text => ({ s with currentChatMessage := text }, [])
  | .sendStart id ts => sendChatStart s id ts
  | .sendComplete r id ts => (sendChatComplete s r id ts, [])
  | .welcome k id ts =>
      (addChatMessage s "assistant" (welcomeMessages.getD (k % 4) "") none id ts, [])
  | .initStart => (s, [.getHelp])
  | .initOk tasks => ({ s with availableTasks := tasks }, [])
  | .initFail => (s, [])
  | .popularStart => (s, [.popularInstructions])
  | .popularOk l => ({ s with popularInstructions := l }, [])
  | .popularFail => (s, [])
  | .searchStart q => (s, if jsTrim q = "" then [] else [.searchInstructions q])
  | .searchOk => (s, [])
  | .searchFail => (s, [])
  | .instrStart taskId _ => (s, [.getInstruction taskId])
  | .instrOk taskName steps instrId id ts =>
      (addChatMessage { s with activeTab := "chat" } "assistant"
        ("Вот инструкция для задачи \x22" ++ taskName ++ "\x22:")
        (some { steps := steps.getD [], instruction_id := instrId }) id ts, [])
  | .instrFail id ts => (addChatMessage s "assistant" instrApology none id ts, [])
  | .loadInstr steps instrId id ts =>
      (addChatMessage { s with activeTab := "chat" } "assistant" "Вот инструкция:"
        (some { steps := steps.getD [], instruction_id := instrId }) id ts, [])
  | .voiceStart t =>
      if s.isListening then (s, [])
      else (s, match t with
        | some txt => if txt = "" then [] else [.processVoice txt]
        | none => [])
  | .voiceOk txt source rtext steps instrId id1 ts1 id2 ts2 =>
      let s1 := addChatMessage { s with activeTab := "chat" } "user" txt none id1 ts1
      if source = "existing" ∨ source = "generated" ∨ source = "fallback" then
        (addChatMessage s1 "assistant" rtext
          (some { steps := steps, instruction_id := instrId }) id2 ts2, [])
      else (addChatMessage s1 "assistant" rtext none id2 ts2, [])
  | .voiceFail id ts => (addChatMessage s "assistant" voiceApology none id ts, [])
  | .exportStart fmt instrId =>
      (s, match instrId with
        | none => []
        | some i => [.exportReq fmt i])
  | .exportOk => (s, [])
  | .exportFail => (s, [])
  | .togglePanel =>
      let s1 := { s with isMinimized := false }
      if s.isVisible then ({ s1 with isVisible := false }, [])
      else ({ s1 with isVisible := true, hasUnreadMessages := false }, [])
  | .showPanel => ({ s with isVisible := true, hasUnreadMessages := false }, [])
  | .hidePanel => ({ s with isVisible := false }, [])
  | .toggleMinimize => ({ s with isMinimized := !s.isMinimized }, [])
  | .switchTab tab => ({ s with activeTab := tab }, [])
  | .sendMessagePub m id ts => sendChatStart { s with currentChatMessage := m } id ts

/-- The segments that are the resolution of the `/api/chat` request —
the only place `isWaitingForResponse` is reset. -/
def isSendComplete : WidgetOp → Bool
  | .sendComplete _ _ _ => true
  | _ => false

/- ===================== Helper lemmas ================================= -/

theorem nodeSize_pos : ∀ nd : DomNode, 1 ≤ nodeSize nd
  | .text _ => le_refl 1
  | .elem _ _ _ => Nat.le_add_right 1 _

theorem jsNormalize_length_le (s : String) : (jsNormalize s).length ≤ 200 := by
  show (String.mk (List.take 200 (collapseWs (trimChars s.toList)))).length ≤ 200
  have h : (String.mk (List.take 200 (collapseWs (trimChars s.toList)))).length
      = (List.take 200 (collapseWs (trimChars s.toList))).length := rfl
  rw [h, List.length_take]
  exact Nat.min_le_left _ _

theorem jsNormalize_empty : jsNormalize "" = "" := rfl

theorem trimChars_eq_nil (l : List Char) (h : l.all isWs = true) : trimChars l = [] := by
  have hd : l.dropWhile isWs = [] := by
    rw [List.dropWhile_eq_nil_iff]
    intro x hx
    exact List.all_eq_true.mp h x hx
  simp [trimChars, hd]

theorem jsTrim_all_ws (s : String) (h : s.toList.all isWs = true) : jsTrim s = "" := by
  show String.mk (trimChars s.toList) = ""
  rw [trimChars_eq_nil s.toList h]

theorem addChatMessage_chatMessages (s : WidgetState) (role content : String)
    (instr : Option InstructionData) (id : Nat) (ts : String) :
    (addChatMessage s role content instr id ts).chatMessages =
      s.chatMessages ++ [{ id := id, role := role, content := content,
                           timestamp := ts, instructionData := instr }] := by
  by_cases hc : (!s.isVisible && role == "assistant") = true
  · simp [addChatMessage, hc]
  · simp [addChatMessage, hc]

theorem addChatMessage_isWaiting (s : WidgetState) (role content : String)
    (instr : Option InstructionData) (id : Nat) (ts : String) :
    (addChatMessage s role content instr id ts).isWaitingForResponse =
      s.isWaitingForResponse := by
  by_cases hc : (!s.isVisible && role == "assistant") = true
  · simp [addChatMessage, hc]
  · simp [addChatMessage, hc]

theorem elemDescList_eq_zero (cs : List DomNode) (h : heightEList cs = 0) :
    elemDescList cs = 0 := by
  induction cs with
  | nil => rfl
  | cons c cs ih =>
    cases c with
    | text s =>
      have h2 : heightEList cs = 0 := by simpa [heightEList, heightNode] using h
      simp [elemDescList, elemDescNode, ih h2]
    | elem t a cc =>
      exfalso
      have hge : 1 ≤ heightEList (DomNode.elem t a cc :: cs) := by
        have h1 := le_max_left (heightNode (DomNode.elem t a cc)) (heightEList cs)
        have h2 : heightNode (DomNode.elem t a cc) = 1 + heightEList cc := rfl
        have h3 : heightEList (DomNode.elem t a cc :: cs) =
            max (heightNode (DomNode.elem t a cc)) (heightEList cs) := rfl
        omega
      omega

/-- A forest whose element at depth `≥ 1` exists always yields a `none`
(crashing) interactive count once the children are processed at a depth
beyond the cutoff: the first element child maps to a sentinel. -/
theorem countInteractiveList_deep (cs : List DomNode) (d : Nat)
    (hd : 11 ≤ d) (hh : 1 ≤ heightEList cs) :
    countInteractiveList (elemChildren cs d) = none := by
  induction cs with
  | nil => simp [heightEList] at hh
  | cons c cs ih =>
    cases c with
    | text s =>
      have hh2 : 1 ≤ heightEList cs := by simpa [heightEList, heightNode] using hh
      simpa [elemChildren] using ih hh2
    | elem t a cc =>
      have hgt : d > 10 := by omega
      simp [elemChildren, elementToTree, hgt, countInteractiveList, countInteractive]

/-- When some element of the forest `cs` sits deeper than the cutoff
relative to the processing depth `d`, `countInteractiveElements` hits a
sentinel and throws. -/
theorem countInteractiveList_overflow :
    ∀ (n : Nat) (cs : List DomNode), sizeList cs ≤ n → ∀ d : Nat, d ≤ 10 →
      12 ≤ heightEList cs + d → countInteractiveList (elemChildren cs d) = none := by
  intro n
  induction n with
  | zero =>
    intro cs hsz d hd hh
    cases cs with
    | nil => simp [heightEList] at hh; omega
    | cons c cs =>
      have := nodeSize_pos c
      simp [sizeList] at hsz
      omega
  | succ n ih =>
    intro cs hsz d hd hh
    cases cs with
    | nil => simp [heightEList] at hh; omega
    | cons c cs =>
      cases c with
      | text s =>
        have hh2 : 12 ≤ heightEList cs + d := by
          simp [heightEList, heightNode] at hh; omega
        have hsz2 : sizeList cs ≤ n := by
          have := nodeSize_pos (DomNode.text s)
          simp [sizeList] at hsz; omega
        simpa [elemChildren] using ih cs hsz2 d hd hh2
      | elem t a cc =>
        have hsplit : sizeList cc ≤ n ∧ sizeList cs ≤ n := by
          simp [sizeList, nodeSize] at hsz; omega
        have hmax : heightEList (DomNode.elem t a cc :: cs) =
            max (1 + heightEList cc) (heightEList cs) := rfl
        have hle : 12 - d ≤ max (1 + heightEList cc) (heightEList cs) := by omega
        rcases le_max_iff.mp hle with hcase | hcase
        · have hnone : countInteractive (elementToTree (.elem t a cc) d) = none := by
            have hdle : ¬ d > 10 := by omega
            by_cases hd10 : d = 10
            · have h1 : countInteractiveList (elemChildren cc (d + 1)) = none :=
                countInteractiveList_deep cc (d + 1) (by omega) (by omega)
              simp [elementToTree, hdle, countInteractive, h1]
            · have h1 : countInteractiveList (elemChildren cc (d + 1)) = none :=
                ih cc hsplit.1 (d + 1) (by omega) (by omega)
              simp [elementToTree, hdle, countInteractive, h1]
          simp [elemChildren, countInteractiveList, hnone]
        · have h1 : countInteractiveList (elemChildren cs d) = none :=
            ih cs hsplit.2 d hd (by omega)
          cases hx : countInteractive (elementToTree (.elem t a cc) d) <;>
            simp [elemChildren, countInteractiveList, hx, h1]

/-- Below the cutoff, the accumulated `elementCount` agrees with the
true number of descendant elements, provided no element lies more than
`12 - d` levels below the processing depth `d` (sentinels at the cutoff
are counted as childless leaves, which is exact when they really are). -/
theorem sumEc_eq_elemDescList :
    ∀ (n : Nat) (cs : List DomNode), sizeList cs ≤ n → ∀ d : Nat, d ≤ 11 →
      heightEList cs + d ≤ 12 → sumEc (elemChildren cs d) = elemDescList cs := by
  intro n
  induction n with
  | zero =>
    intro cs hsz d _ _
    cases cs with
    | nil => rfl
    | cons c cs =>
      have := nodeSize_pos c
      simp [sizeList] at hsz
      omega
  | succ n ih =>
    intro cs hsz d hd hh
    cases cs with
    | nil => rfl
    | cons c cs =>
      cases c with
      | text s =>
        have hh2 : heightEList cs + d ≤ 12 := by
          simp [heightEList, heightNode] at hh; omega
        have hsz2 : sizeList cs ≤ n := by
          have := nodeSize_pos (DomNode.text s)
          simp [sizeList] at hsz; omega
        simp only [elemChildren]
        rw [ih cs hsz2 d hd hh2]
        simp [elemDescList, elemDescNode]
      | elem t a cc =>
        have hsplit : sizeList cc ≤ n ∧ sizeList cs ≤ n := by
          simp [sizeList, nodeSize] at hsz; omega
        have hmax : heightEList (DomNode.elem t a cc :: cs) =
            max (1 + heightEList cc) (heightEList cs) := rfl
        have hcc : 1 + heightEList cc + d ≤ 12 := by
          have h1 := le_max_left (1 + heightEList cc) (heightEList cs)
          omega
        have hcs : heightEList cs + d ≤ 12 := by
          have h1 := le_max_right (1 + heightEList cc) (heightEList cs)
          omega
        have htail := ih cs hsplit.2 d hd hcs
        have hhead : ecOf (elementToTree (.elem t a cc) d) = elemDescList cc := by
          by_cases hd10 : d ≤ 10
          · have hno : ¬ d > 10 := by omega
            have hkid := ih cc hsplit.1 (d + 1) (by omega) (by omega)
            simp [elementToTree, hno, ecOf, hkid]
          · have hd11 : d > 10 := by omega
            have hz : heightEList cc = 0 := by omega
            have hdz : elemDescList cc = 0 := elemDescList_eq_zero cc hz
            simp [elementToTree, hd11, ecOf, hdz]
        simp only [elemChildren, sumEc, elemDescList, elemDescNode]
        omega

/-- Within the depth budget, `countInteractiveElements` terminates and
returns exactly the number of interactive elements of the forest. -/
theorem countInteractiveList_ok :
    ∀ (n : Nat) (cs : List DomNode), sizeList cs ≤ n → ∀ d : Nat,
      heightEList cs + d ≤ 11 →
      countInteractiveList (elemChildren cs d) = some (domInteractiveList cs) := by
  intro n
  induction n with
  | zero =>
    intro cs hsz d _
    cases cs with
    | nil => rfl
    | cons c cs =>
      have := nodeSize_pos c
      simp [sizeList] at hsz
      omega
  | succ n ih =>
    intro cs hsz d hh
    cases cs with
    | nil => rfl
    | cons c cs =>
      cases c with
      | text s =>
        have hh2 : heightEList cs + d ≤ 11 := by
          simp [heightEList, heightNode] at hh; omega
        have hsz2 : sizeList cs ≤ n := by
          have := nodeSize_pos (DomNode.text s)
          simp [sizeList] at hsz; omega
        simp only [elemChildren]
        rw [ih cs hsz2 d hh2]
        simp [domInteractiveList, domInteractive]
      | elem t a cc =>
        have hsplit : sizeList cc ≤ n ∧ sizeList cs ≤ n := by
          simp [sizeList, nodeSize] at hsz; omega
        have hmax : heightEList (DomNode.elem t a cc :: cs) =
            max (1 + heightEList cc) (heightEList cs) := rfl
        have hcc : 1 + heightEList cc + d ≤ 11 := by
          have h1 := le_max_left (1 + heightEList cc) (heightEList cs)
          omega
        have hcs2 : heightEList cs + d ≤ 11 := by
          have h1 := le_max_right (1 + heightEList cc) (heightEList cs)
          omega
        have hdle : ¬ d > 10 := by omega
        have hkids := ih cc hsplit.1 (d + 1) (by omega)
        have htail := ih cs hsplit.2 d hcs2
        have hhead : countInteractive (elementToTree (.elem t a cc) d) =
            some (domInteractive (.elem t a cc)) := by
          simp [elementToTree, hdle, countInteractive, hkids, domInteractive]
        simp [elemChildren, countInteractiveList, hhead, htail, domInteractiveList]

/- ===================== Claim C1 ====================================== -/

/-- C1 counterexample: on a chain of 13 nested `div`s the root has 12
descendant elements, but the reported `elementCount` is 11 — the
elements below the depth cutoff carry no `elementCount` field and are
counted via `|| 0`, so the subtree below each sentinel is dropped. -/
theorem c1_counterexample :
    ecOf (elementToTree (chainDiv 12) 0) = 11 ∧ elemDesc (chainDiv 12) = 12 :=
  ⟨rfl, rfl⟩

/-- C1 amended: the root's `elementCount` equals the number of
descendant elements strictly below the root provided no element lies
more than 11 levels below the root (every sentinel produced at the
cutoff is a childless leaf); deeper elements are dropped from the
count. -/
theorem c1_element_count (t : String) (a : List (String × String)) (cs : List DomNode)
    (h : heightEList cs ≤ 11) :
    ecOf (elementToTree (.elem t a cs) 0) = elemDesc (.elem t a cs) := by
  have h1 := sumEc_eq_elemDescList (sizeList cs) cs le_rfl 1 (by omega) (by omega)
  simp [elementToTree, ecOf, elemDesc, h1]

theorem c1_witness :
    heightEList [chainDiv 10] ≤ 11 ∧
    ecOf (elementToTree (.elem "DIV" [] [chainDiv 10]) 0) =
      elemDesc (.elem "DIV" [] [chainDiv 10]) :=
  ⟨by decide, c1_element_count "DIV" [] [chainDiv 10] (by decide)⟩

/- ===================== Claim C4 ====================================== -/

/-- C4 counterexample: on a document that is a chain of 13 nested
anchors, 13 elements have an interactive tag, but
`countInteractiveElements` computes no number at all — it reaches a
depth-limit sentinel, iterates its missing `children` field and
throws. -/
theorem c4_counterexample :
    countInteractive (elementToTree (chainA 12) 0) = none ∧
    domInteractive (chainA 12) = 13 :=
  ⟨rfl, rfl⟩

/-- C4 amended: provided the document's element tree reaches at most 10
levels below the root (no sentinel is produced),
`countInteractiveElements` returns exactly the number of element nodes —
root included — whose lower-cased tag is one of
button, a, input, select, textarea, form. -/
theorem c4_interactive_count (t : String) (a : List (String × String)) (cs : List DomNode)
    (h : heightEList cs ≤ 10) :
    countInteractive (elementToTree (.elem t a cs) 0) =
      some (domInteractive (.elem t a cs)) := by
  have h1 := countInteractiveList_ok (sizeList cs) cs le_rfl 1 (by omega)
  simp [elementToTree, countInteractive, domInteractive, h1]

theorem c4_witness :
    heightEList [chainA 9] ≤ 10 ∧
    countInteractive (elementToTree (.elem "A" [] [chainA 9]) 0) =
      some (domInteractive (.elem "A" [] [chainA 9])) :=
  ⟨by decide, c4_interactive_count "A" [] [chainA 9] (by decide)⟩

/- ===================== Claim C10 ===================================== -/

/-- C10: `countInteractiveElements` iterates `node.children`
unconditionally, but depth-limit sentinels (and the `{error}` object
from `parseDOM`) have no `children` field, so for every file whose
element tree goes deeper than the cap the per-file analysis throws, the
exception is caught in `analyzeDOM`, and the file is recorded as a
`{file, error}` record instead of an analysis with stats. -/
theorem c10_missing_children_crash :
    (∀ (file t : String) (a : List (String × String)) (cs : List DomNode),
       11 ≤ heightEList cs →
       processFile file (some (.elem t a cs)) = .error file childrenIterMsg) ∧
    (∀ file : String, processFile file none = .error file childrenIterMsg) := by
  constructor
  · intro file t a cs h
    have h1 : countInteractiveList (elemChildren cs 1) = none :=
      countInteractiveList_overflow (sizeList cs) cs le_rfl 1 (by omega) (by omega)
    have h2 : countInteractive (elementToTree (.elem t a cs) 0) = none := by
      simp [elementToTree, countInteractive, h1]
    simp [processFile, parseDOM, countInteractiveResult, h2]
  · intro file
    rfl

theorem c10_witness :
    11 ≤ heightEList [chainDiv 11] ∧
    processFile "deep.html" (some (.elem "DIV" [] [chainDiv 11])) =
      .error "deep.html" childrenIterMsg :=
  ⟨by decide, c10_missing_children_crash.1 "deep.html" "DIV" [] [chainDiv 11] (by decide)⟩

/- ===================== Claim C2 ====================================== -/

/-- C2: every element reached by `elementToTree` at depth strictly
greater than 10 yields the sentinel `{tagName, depthLimit: true}`, which
carries no `children` field: no child nodes are produced below the
cutoff. -/
theorem c2_depth_limit_sentinel (t : String) (a : List (String × String))
    (cs : List DomNode) (d : Nat) (h : 10 < d) :
    elementToTree (.elem t a cs) d = .limit (sentinelTag t) ∧
    childrenOf (elementToTree (.elem t a cs) d) = none := by
  have he : elementToTree (.elem t a cs) d = .limit (sentinelTag t) := by
    unfold elementToTree
    simp [h]
  exact ⟨he, by rw [he]; rfl⟩

theorem c2_witness :
    10 < 11 ∧
    (elementToTree (.elem "SPAN" [] [.text "x"]) 11 = .limit (sentinelTag "SPAN") ∧
     childrenOf (elementToTree (.elem "SPAN" [] [.text "x"]) 11) = none) :=
  ⟨by decide, c2_depth_limit_sentinel "SPAN" [] [.text "x"] 11 (by decide)⟩

/- ===================== Claim C3 ====================================== -/

/-- C3: every non-sentinel node produced by `elementToTree` stores the
element's text content trimmed, whitespace-collapsed and truncated to at
most 200 characters (the sentinel node has no `textContent` field at
all, so the nodes carrying the field are exactly those built at depth
`≤ 10`). -/
theorem c3_text_content_normalized (t : String) (a : List (String × String))
    (cs : List DomNode) (d : Nat) (h : d ≤ 10) :
    textContentField (elementToTree (.elem t a cs) d) =
      some (jsNormalize (textContentOf.textContentList cs)) ∧
    (jsNormalize (textContentOf.textContentList cs)).length ≤ 200 := by
  constructor
  · have hno : ¬ d > 10 := by omega
    unfold elementToTree
    simp only [hno, if_false]
    by_cases he : textContentOf.textContentList cs = ""
    · simp [textContentField, he, jsNormalize_empty]
    · simp [textContentField, he]
  · exact jsNormalize_length_le _

theorem c3_witness :
    (0 : Nat) ≤ 10 ∧
    (textContentField (elementToTree (.elem "DIV" [] [.text "  a   b  "]) 0) =
       some (jsNormalize (textContentOf.textContentList [.text "  a   b  "])) ∧
     (jsNormalize (textContentOf.textContentList [.text "  a   b  "])).length ≤ 200) :=
  ⟨by decide, c3_text_content_normalized "DIV" [] [.text "  a   b  "] 0 (by decide)⟩

/- ===================== Claim C5 ====================================== -/

/-- C5: when the chat input is empty or whitespace-only, `sendChatMessage`
returns at the guard on line 1164: the state (chat message list
included) is unchanged and no HTTP request is issued. -/
theorem c5_empty_message_noop (s : WidgetState) (id : Nat) (ts : String)
    (h : s.currentChatMessage.toList.all isWs = true) :
    step s (.sendStart id ts) = (s, []) := by
  have ht : jsTrim s.currentChatMessage = "" := jsTrim_all_ws _ h
  simp [step, sendChatStart, ht]

theorem c5_witness :
    (" \t ".toList.all isWs = true) ∧
    step { initialWidgetState with currentChatMessage := " \t " } (.sendStart 7 "10:15") =
      ({ initialWidgetState with currentChatMessage := " \t " }, []) :=
  ⟨by decide, c5_empty_message_noop _ 7 "10:15" (by decide)⟩

/- ===================== Claim C6 ====================================== -/

/-- C6: while `isWaitingForResponse` is set, a second `sendChatMessage`
is rejected at the guard (no message appended, no request issued); no
segment other than the resolution of the pending `/api/chat` request
clears the flag, and that resolution always resets it to `false`. -/
theorem c6_pending_request_guard :
    (∀ (s : WidgetState) (id : Nat) (ts : String),
       s.isWaitingForResponse = true → step s (.sendStart id ts) = (s, [])) ∧
    (∀ (s : WidgetState) (r : ChatReply) (id : Nat) (ts : String),
       ((step s (.sendComplete r id ts)).1).isWaitingForResponse = false) ∧
    (∀ (s : WidgetState) (op : WidgetOp),
       s.isWaitingForResponse = true → isSendComplete op = false →
       ((step s op).1).isWaitingForResponse = true) := by
  refine ⟨?_, ?_, ?_⟩
  · intro s id ts hw
    simp [step, sendChatStart, hw]
  · intro s r id ts
    rfl
  · intro s op hw hnc
    cases op <;>
      simp_all [step, sendChatStart, addChatMessage_isWaiting, isSendComplete] <;>
      try (split <;> simp_all [addChatMessage_isWaiting])

/-- Witness for C6 at a concrete waiting state: the second send is a
no-op, any non-resolution segment keeps the flag, and the resolution
clears it. -/
theorem c6_witness :
    ({ initialWidgetState with isWaitingForResponse := true } : WidgetState).isWaitingForResponse = true ∧
    step { initialWidgetState with isWaitingForResponse := true } (.sendStart 3 "10:16") =
      ({ initialWidgetState with isWaitingForResponse := true }, []) ∧
    ((step { initialWidgetState with isWaitingForResponse := true }
        (.sendComplete .failure 4 "10:17")).1).isWaitingForResponse = false :=
  ⟨rfl, c6_pending_request_guard.1 _ 3 "10:16" rfl,
    c6_pending_request_guard.2.1 _ .failure 4 "10:17"⟩

/- ===================== Claim C8 ====================================== -/

/-- C8 counterexample: a failure of the `/api/search-instructions` call
is only logged (lines 1034-1036) — the widget state, in particular the
chat message list, is untouched and no apology message appears, contrary
to the claim that every network failure surfaces an apology in chat. -/
theorem c8_counterexample :
    ((step initialWidgetState .searchFail).1).chatMessages = initialWidgetState.chatMessages ∧
    initialWidgetState.chatMessages = [] :=
  ⟨rfl, rfl⟩

/-- C8 amended: every network failure is caught (each transition below
is total — nothing propagates) and logged, but only the chat-flow calls
(`/api/chat`, `/api/get-instruction`, `/api/process-voice`) append a
generic apology to the chat; the initial help fetch, the
popular-instruction load, the search and the export fail silently,
leaving the state unchanged. -/
theorem c8_failure_handling (s : WidgetState) (id : Nat) (ts : String) :
    step s .initFail = (s, []) ∧
    step s .popularFail = (s, []) ∧
    step s .searchFail = (s, []) ∧
    step s .exportFail = (s, []) ∧
    (step s (.sendComplete .failure id ts)).2 = [] ∧
    ((step s (.sendComplete .failure id ts)).1).chatMessages =
      s.chatMessages ++ [{ id := id, role := "assistant", content := chatApology,
                           timestamp := ts, instructionData := none }] ∧
    (step s (.instrFail id ts)).2 = [] ∧
    ((step s (.instrFail id ts)).1).chatMessages =
      s.chatMessages ++ [{ id := id, role := "assistant", content := instrApology,
                           timestamp := ts, instructionData := none }] ∧
    (step s (.voiceFail id ts)).2 = [] ∧
    ((step s (.voiceFail id ts)).1).chatMessages =
      s.chatMessages ++ [{ id := id, role := "assistant", content := voiceApology,
                           timestamp := ts, instructionData := none }] := by
  refine ⟨rfl, rfl, rfl, rfl, rfl, ?_, rfl, ?_, rfl, ?_⟩
  · simp [step, sendChatComplete, addChatMessage_chatMessages]
  · simp [step, addChatMessage_chatMessages]
  · simp [step, addChatMessage_chatMessages]

/- ===================== Claim C9 ====================================== -/

/-- C9: the chat message list is append-only — every widget segment
either leaves `state.chatMessages` unchanged or extends it at the end;
existing messages are never mutated or removed. -/
theorem c9_chat_append_only (s : WidgetState) (op : WidgetOp) :
    ∃ t, ((step s op).1).chatMessages = s.chatMessages ++ t := by
  cases op with
  | inputChanged text => exact ⟨[], by simp [step]⟩
  | sendStart id ts =>
    by_cases hc : jsTrim s.currentChatMessage = "" ∨ s.isWaitingForResponse = true
    · exact ⟨[], by simp [step, sendChatStart, hc]⟩
    · refine ⟨[{ id := id, role := "user", content := jsTrim s.currentChatMessage,
                 timestamp := ts, instructionData := none }], ?_⟩
      simp [step, sendChatStart, hc, addChatMessage_chatMessages]
  | sendComplete r id ts =>
    cases r with
    | ok type msg instr =>
      by_cases ht : type = "instruction"
      · exact ⟨[{ id := id, role := "assistant", content := msg,
                  timestamp := ts, instructionData := instr }],
          by simp [step, sendChatComplete, ht, addChatMessage_chatMessages]⟩
      · exact ⟨[{ id := id, role := "assistant", content := msg,
                  timestamp := ts, instructionData := none }],
          by simp [step, sendChatComplete, ht, addChatMessage_chatMessages]⟩
    | failure =>
      exact ⟨[{ id := id, role := "assistant", content := chatApology,
                timestamp := ts, instructionData := none }],
        by simp [step, sendChatComplete, addChatMessage_chatMessages]⟩
  | welcome k id ts =>
    exact ⟨[{ id := id, role := "assistant", content := welcomeMessages.getD (k % 4) "",
              timestamp := ts, instructionData := none }],
      by simp [step, addChatMessage_chatMessages]⟩
  | initStart => exact ⟨[], by simp [step]⟩
  | initOk tasks => exact ⟨[], by simp [step]⟩
  | initFail => exact ⟨[], by simp [step]⟩
  | popularStart => exact ⟨[], by simp [step]⟩
  | popularOk l => exact ⟨[], by simp [step]⟩
  | popularFail => exact ⟨[], by simp [step]⟩
  | searchStart q => exact ⟨[], by simp [step]⟩
  | searchOk => exact ⟨[], by simp [step]⟩
  | searchFail => exact ⟨[], by simp [step]⟩
  | instrStart taskId taskName => exact ⟨[], by simp [step]⟩
  | instrOk taskName steps instrId id ts =>
    exact ⟨[{ id := id, role := "assistant",
              content := "Вот инструкция для задачи \x22" ++ taskName ++ "\x22:",
              timestamp := ts,
              instructionData := some { steps := steps.getD [], instruction_id := instrId } }],
      by simp [step, addChatMessage_chatMessages]⟩
  | instrFail id ts =>
    exact ⟨[{ id := id, role := "assistant", content := instrApology,
              timestamp := ts, instructionData := none }],
      by simp [step, addChatMessage_chatMessages]⟩
  | loadInstr steps instrId id ts =>
    exact ⟨[{ id := id, role := "assistant", content := "Вот инструкция:",
              timestamp := ts,
              instructionData := some { steps := steps.getD [], instruction_id := instrId } }],
      by simp [step, addChatMessage_chatMessages]⟩
  | voiceStart t =>
    refine ⟨[], ?_⟩
    by_cases hl : s.isListening = true
    · simp [step, hl]
    · simp [step, hl]
  | voiceOk txt source rtext steps instrId id1 ts1 id2 ts2 =>
    by_cases hs : source = "existing" ∨ source = "generated" ∨ source = "fallback"
    · refine ⟨[{ id := id1, role := "user", content := txt,
                 timestamp := ts1, instructionData := none },
               { id := id2, role := "assistant", content := rtext,
                 timestamp := ts2,
                 instructionData := some { steps := steps, instruction_id := instrId } }], ?_⟩
      simp [step, hs, addChatMessage_chatMessages]
    · refine ⟨[{ id := id1, role := "user", content := txt,
                 timestamp := ts1, instructionData := none },
               { id := id2, role := "assistant", content := rtext,
                 timestamp := ts2, instructionData := none }], ?_⟩
      simp [step, hs, addChatMessage_chatMessages]
  | voiceFail id ts =>
    exact ⟨[{ id := id, role := "assistant", content := voiceApology,
              timestamp := ts, instructionData := none }],
      by simp [step, addChatMessage_chatMessages]⟩
  | exportStart fmt instrId => exact ⟨[], by simp [step]⟩
  | exportOk => exact ⟨[], by simp [step]⟩
  | exportFail => exact ⟨[], by simp [step]⟩
  | togglePanel =>
    refine ⟨[], ?_⟩
    by_cases hv : s.isVisible = true
    · simp [step, hv]
    · simp [step, hv]
  | showPanel => exact ⟨[], by simp [step]⟩
  | hidePanel => exact ⟨[], by simp [step]⟩
  | toggleMinimize => exact ⟨[], by simp [step]⟩
  | switchTab tab => exact ⟨[], by simp [step]⟩
  | sendMessagePub m id ts =>
    by_cases hc : jsTrim m = "" ∨ s.isWaitingForResponse = true
    · exact ⟨[], by simp [step, sendChatStart, hc]⟩
    · refine ⟨[{ id := id, role := "user", content := jsTrim m,
                 timestamp := ts, instructionData := none }], ?_⟩
      simp [step, sendChatStart, hc, addChatMessage_chatMessages]

/- ===================== Claim C7 ====================================== -/

/-- C7: the snapshot tool records a per-file failure as a
`{file, error}` record and keeps processing the remaining files (each
input file yields exactly one record, independently of the others),
while a malformed input list or a filesystem error at startup aborts the
run with exit code 1 and a JSON error line (`RunOutcome.fatal 1`). -/
theorem c7_error_isolation :
    runMain none = .fatal 1 ∧
    (∀ files : List (String × Option DomNode),
       runMain (some files) = .success (analyzeDOM files) ∧
       (analyzeDOM files).results = files.map (fun fc => processFile fc.1 fc.2) ∧
       (analyzeDOM files).totalPages = files.length) ∧
    (∀ (file : String) (content : Option DomNode),
       countInteractiveResult (parseDOM content) = none →
       processFile file content = .error file childrenIterMsg) := by
  refine ⟨rfl, ?_, ?_⟩
  · intro files
    exact ⟨rfl, rfl, rfl⟩
  · intro file content h
    simp [processFile, h]

/-- Witness for C7: a two-file batch whose first file fails to read is
reported as one error record followed by the second file's analysis, and
a bad input list is fatal. -/
theorem c7_witness :
    runMain none = .fatal 1 ∧
    (analyzeDOM [("bad.html", none), ("ok.html", some (.elem "HTML" [] []))]).results =
      [.error "bad.html" childrenIterMsg, .analysis "ok.html" 0 0] ∧
    processFile "bad.html" none = .error "bad.html" childrenIterMsg :=
  ⟨c7_error_isolation.1, rfl, c7_error_isolation.2.2 "bad.html" none rfl⟩
